import Mathlib

/-!
Verification of the 51-plugins repository (FiftyOne plugins).

This file shallowly embeds the ingestion / snapshot pipelines of the
repository:

* the media-import pipeline of src/@z430/preacc/import_images.py
  (discovery, optional upload with per-10 progress events, delegated
  single bulk insert vs interactive dynamically-batched inserts);
* the snapshot export operator of src/@z430/snapshots/__init__.py
  (SnapshotSamples.execute);
* the two snapshot importers: ImportSnapshots._import_sample of
  src/@z430/snapshots/__init__.py (per-item try/except, missing-media
  warning) and ImportSnapshots._import_sample of
  src/@z430/import_snapshots/__init__.py (no per-item error handling,
  no warning).

External collaborators (the fiftyone library) are abstracted: the
dataset is represented by the list of insert calls issued against it,
the filesystem by the list of existing file paths, and
fou.DynamicBatcher / fou.UniqueFilenameMaker, which are library code
outside this repository, are modelled from the spec (see their doc
comments).
-/

namespace Z430

/-- os.path.basename restricted to "/"-separated paths: the text after the
last "/" (computed over the character list so that it reduces in the
kernel). -/
def basenameAux : List Char → List Char → List Char
  | cur, [] => cur.reverse
  | cur, c :: rest => if c = '/' then basenameAux [] rest else basenameAux (c :: cur) rest

/-- os.path.basename(p) for "/"-separated paths. -/
def basename (p : String) : String :=
  String.mk (basenameAux [] p.toList)

/-- Python s.split(".")[0]: the text of s before its first ".", all of s when
s has no dot. -/
def beforeFirstDotAux : List Char → List Char
  | [] => []
  | c :: rest => if c = '.' then [] else c :: beforeFirstDotAux rest

/-- Python s.split(".")[0] as used by SnapshotSamples.execute. -/
def beforeFirstDot (s : String) : String :=
  String.mk (beforeFirstDotAux s.toList)

/-- os.path.join(dir, name) for absolute "/"-separated paths, as used
throughout both snapshot plugins. -/
def pjoin (dir name : String) : String :=
  dir ++ "/" ++ name

/-- A progress event. In the source, import_images yields
ctx.trigger("set_progress", dict(progress=completed/total, label=message));
the event is determined by the (completed, total, message) triple, which is
what we record. -/
structure ProgressEvent where
  completed : Nat
  total : Nat
  message : String
deriving Repr, DecidableEq

/-- A sample constructed by import_images: make_sample = lambda f:
fo.Sample(filepath=f, tags=tags) (import_images.py line 238). -/
structure Sample where
  filepath : String
  tags : Option (List String)
deriving Repr, DecidableEq

/-- make_sample of import_images.py line 238. -/
def mkSample (tags : Option (List String)) (f : String) : Sample :=
  { filepath := f, tags := tags }

/-- The insert calls _import_media issues against ctx.dataset:
addSamplesBulk is ctx.dataset.add_samples(samples, num_samples=...) (line
242, delegated mode); addSamplesBatch is
ctx.dataset._add_samples_batch(samples, True, False, True) (line 253,
interactive mode, once per batch). -/
inductive InsertCall where
  | addSamplesBulk (samples : List Sample) (numSamples : Nat)
  | addSamplesBatch (samples : List Sample)
deriving Repr, DecidableEq

/-- The observable trace of one _import_media run: the progress events it
yields, the dataset insert calls it makes, and the file copies the upload
phase performs. -/
structure ImportRun where
  events : List ProgressEvent
  inserts : List InsertCall
  copies : List (String × String)
deriving Repr, DecidableEq

/-- Modelled from the spec: fou.DynamicBatcher (fiftyone library code, not
part of this repository; spec section 4.4) consumes the input sequence in
batches whose sizes adapt to observed per-batch wall-clock latency.  The
timing-driven size choice is abstracted into an arbitrary function
sizes : Nat → Nat giving the size proposed before the k-th batch; each
batch takes at least one and at most the remaining number of items, which
is the only property of the batcher the spec's invariants rely on.  The
fuel argument (instantiated with the input length) bounds the recursion;
it is never exhausted because every batch is non-empty. -/
def dynamicBatchesAux {α : Type} (sizes : Nat → Nat) : Nat → Nat → List α → List (List α)
  | 0, _, _ => []
  | _, _, [] => []
  | fuel + 1, step, x :: xs =>
    let k := min (max (sizes step) 1) (x :: xs).length
    (x :: xs).take k :: dynamicBatchesAux sizes fuel (step + 1) ((x :: xs).drop k)

/-- Modelled from the spec: the batch sequence fou.DynamicBatcher produces
for a given input, for a given adapted size sequence. -/
def dynamicBatches {α : Type} (sizes : Nat → Nat) (items : List α) : List (List α) :=
  dynamicBatchesAux sizes items.length 0 items

/-- _upload_media_tasks (import_images.py lines 277-295).  The
fou.UniqueFilenameMaker collaborator (fiftyone library code) is abstracted
into the allocation function alloc; when upload is requested with an
upload directory, every discovered path is mapped through alloc and paired
with its source to form the copy tasks. -/
def uploadMediaTasks (upload : Bool) (uploadDir : Option String)
    (alloc : String → String) (filepaths : List String) :
    List String × Option (List (String × String)) :=
  let dir := if upload then uploadDir else none
  match dir with
  | none => (filepaths, none)
  | some _ => (filepaths.map alloc, some (filepaths.zip (filepaths.map alloc)))

/-- The event _upload_media yields at a multiple-of-ten completion count
(import_images.py lines 318-321). -/
def uploadEvent (n numTotal : Nat) : ProgressEvent :=
  { completed := n, total := numTotal,
    message := "Uploaded " ++ toString n ++ " of " ++ toString numTotal }

/-- The interactive loop of _upload_media (import_images.py lines 315-321):
tasks complete one by one (in the arbitrary order the worker pool finishes
them); after each completion the counter is incremented and an event is
yielded exactly when the counter is a multiple of 10. -/
def uploadLoop (numTotal : Nat) : Nat → List (String × String) → List ProgressEvent
  | _, [] => []
  | n, _ :: rest =>
    if (n + 1) % 10 = 0 then
      uploadEvent (n + 1) numTotal :: uploadLoop numTotal (n + 1) rest
    else
      uploadLoop numTotal (n + 1) rest

/-- _upload_media (import_images.py lines 298-321).  In delegated mode it
calls fos.copy_files on all tasks at once and yields nothing; in
interactive mode the pool completes the tasks in the arbitrary order
given by the order argument (a permutation of tasks) and the loop yields an
event every 10 completions.  Returns (yielded events, performed copies). -/
def uploadMedia (delegated : Bool) (order tasks : List (String × String)) :
    List ProgressEvent × List (String × String) :=
  if delegated then ([], tasks)
  else (uploadLoop tasks.length 0 order, order)

/-- The event the interactive commit loop yields after a batch
(import_images.py lines 255-257). -/
def loadedEvent (numAdded numTotal : Nat) : ProgressEvent :=
  { completed := numAdded, total := numTotal,
    message := "Loaded " ++ toString numAdded ++ " of " ++ toString numTotal }

/-- The interactive commit loop of _import_media (import_images.py lines
249-257): for each batch, num_added grows by the batch length, one
_add_samples_batch insert is issued, and one event is yielded.  Returns
(yielded events, issued insert calls). -/
def commitLoop (tags : Option (List String)) (numTotal : Nat) :
    Nat → List (List String) → List ProgressEvent × List InsertCall
  | _, [] => ([], [])
  | numAdded, batch :: rest =>
    let numAdded' := numAdded + batch.length
    let r := commitLoop tags numTotal numAdded' rest
    (loadedEvent numAdded' numTotal :: r.1,
     InsertCall.addSamplesBatch (batch.map (mkSample tags)) :: r.2)

/-- _import_media (import_images.py lines 206-257).  Discovery is
abstracted into the filepaths0 argument (the result of _glob_files over the
chosen directory).  With zero discovered items the generator returns at
once.  Otherwise the upload tasks are built; when tasks exist the upload
phase runs (its events are yielded first).  In delegated mode a single
add_samples bulk insert covering every (possibly re-located) filepath is
issued and the generator returns without yielding; in interactive mode the
dynamic batch loop runs. -/
def importMedia (delegated upload : Bool) (uploadDir : Option String)
    (alloc : String → String) (tags : Option (List String))
    (sizes : Nat → Nat) (filepaths0 : List String) : ImportRun :=
  let numTotal := filepaths0.length
  if numTotal = 0 then ⟨[], [], []⟩
  else
    let p := uploadMediaTasks upload uploadDir alloc filepaths0
    let up :=
      match p.2 with
      | none => ([], [])
      | some tasks => if tasks.isEmpty then ([], []) else uploadMedia delegated tasks tasks
    if delegated then
      ⟨up.1,
       [InsertCall.addSamplesBulk (p.1.map (mkSample tags)) p.1.length],
       up.2⟩
    else
      let r := commitLoop tags numTotal 0 (dynamicBatches sizes p.1)
      ⟨up.1 ++ r.1, r.2, up.2⟩

/-- The cumulative number of items inserted after each batch, starting from
a items already inserted: the value num_added takes at each yield of the
interactive commit loop. -/
def cumSizes (a : Nat) : List (List String) → List Nat
  | [] => []
  | b :: rest => (a + b.length) :: cumSizes (a + b.length) rest

/-- A record as seen by the export operator SnapshotSamples.execute: its
media filepath and its serialized JSON document (sample.to_json is opaque
library output; we record it as an abstract string). -/
structure ExportSample where
  filepath : String
  json : String
deriving Repr, DecidableEq

/-- The filesystem effects SnapshotSamples.execute performs: writing a file
with given content, and copying a file (fos.copy_file). -/
inductive WriteOp where
  | writeFile (path : String) (content : String)
  | copyFile (src dst : String)
deriving Repr, DecidableEq

/-- The per-sample body of the export loop (snapshots/__init__.py lines
88-100): write the JSON document to
output_dir/(basename(filepath).split(".")[0] + ".json"), then, when the
filepath is non-empty (Python truthiness), copy the media file to
output_dir/basename(filepath). -/
def exportSample (outputDir : String) (s : ExportSample) : List WriteOp :=
  let sampleFilename := beforeFirstDot (basename s.filepath) ++ ".json"
  let w := WriteOp.writeFile (pjoin outputDir sampleFilename) s.json
  if s.filepath = "" then [w]
  else [w, WriteOp.copyFile s.filepath (pjoin outputDir (basename s.filepath))]

/-- The whole export loop of SnapshotSamples.execute, in sample order. -/
def exportRun (outputDir : String) : List ExportSample → List WriteOp
  | [] => []
  | s :: rest => exportSample outputDir s ++ exportRun outputDir rest

/-- One step of a directory state under a write operation: the directory is
an association list from path to content (a copy records its source path as
the content), and a later write to the same path shadows, i.e. silently
overwrites, an earlier one. -/
def applyWrite (fs : List (String × String)) : WriteOp → List (String × String)
  | WriteOp.writeFile p c => (p, c) :: fs
  | WriteOp.copyFile src dst => (dst, src) :: fs

/-- The directory state after a sequence of write operations. -/
def applyWrites (ws : List WriteOp) (fs : List (String × String)) :
    List (String × String) :=
  ws.foldl applyWrite fs

/-- The content found at a path after the writes: the most recent entry. -/
def lookupFS : List (String × String) → String → Option String
  | [], _ => none
  | (q, c) :: rest, p => if q = p then some c else lookupFS rest p

/-- The paths of the JSON documents written by a write sequence. -/
def jsonWritePaths (ws : List WriteOp) : List String :=
  ws.filterMap fun w =>
    match w with
    | WriteOp.writeFile p _ => some p
    | WriteOp.copyFile _ _ => none

/-- What one snapshot JSON file may hold, as far as the importers
distinguish: a file that does not parse as JSON (json.load raises), a file
whose JSON parses but is not an object (the dict check / .get attribute
access fails), or an object with its "filepath" field (the only field the
importers read; sample_dict.get("filepath", "") gives "" when absent). -/
inductive JsonDoc where
  | malformed
  | nonObject
  | obj (filepath : String)
deriving Repr, DecidableEq

/-- A sample as committed by the snapshot importers: only its filepath is
constrained by the claims (tags and other fields pass through unchanged). -/
structure SnapSample where
  filepath : String
deriving Repr, DecidableEq

/-- The observable outcome of importing json files: the samples added (one
dataset.add_sample call per entry, in order), the media copies performed,
the warning and error log lines, and the resulting set of existing files. -/
structure ImportOutcome where
  added : List SnapSample
  copies : List (String × String)
  warnings : List String
  errors : List String
  fs : List String
deriving Repr, DecidableEq

/-- The destination directory for resolved media: the chosen media_dir when
it is truthy, else os.path.join(fo.config.default_dataset_dir,
dataset.name) (both importers, snapshots/__init__.py lines 377-384 and
import_snapshots/__init__.py lines 114-121). -/
def destinationDir (mediaDir : Option String) (defaultDatasetDir datasetName : String) :
    String :=
  match mediaDir with
  | some d => if d = "" then pjoin defaultDatasetDir datasetName else d
  | none => pjoin defaultDatasetDir datasetName

/-- ImportSnapshots._import_sample of snapshots/__init__.py (lines
343-406).  The whole body is wrapped in try/except: a file that fails to
parse is logged as an error and skipped, as is a parsed non-object.  For an
object: when the media basename is non-empty and the media file exists next
to the JSON file, the media is copied into the destination directory
unless it already exists there, and the sample's filepath is rewritten;
when the basename is non-empty but the file is absent a warning is logged
and the sample keeps its original filepath; the sample is added to the
dataset in every non-error case.  The filesystem is the list of existing
file paths. -/
def importSampleV1 (jsonFile inputDir : String) (mediaDir : Option String)
    (defaultDatasetDir datasetName : String) (doc : JsonDoc) (fs : List String) :
    ImportOutcome :=
  match doc with
  | JsonDoc.malformed =>
    ⟨[], [], [], ["Error importing sample from " ++ jsonFile], fs⟩
  | JsonDoc.nonObject =>
    ⟨[], [], [], ["Invalid JSON format in file: " ++ jsonFile], fs⟩
  | JsonDoc.obj filepath =>
    if basename filepath ≠ "" ∧ pjoin inputDir (basename filepath) ∈ fs then
      if pjoin (destinationDir mediaDir defaultDatasetDir datasetName)
          (basename filepath) ∈ fs then
        ⟨[⟨pjoin (destinationDir mediaDir defaultDatasetDir datasetName)
            (basename filepath)⟩], [], [], [], fs⟩
      else
        ⟨[⟨pjoin (destinationDir mediaDir defaultDatasetDir datasetName)
            (basename filepath)⟩],
         [(pjoin inputDir (basename filepath),
           pjoin (destinationDir mediaDir defaultDatasetDir datasetName)
             (basename filepath))],
         [], [],
         pjoin (destinationDir mediaDir defaultDatasetDir datasetName)
           (basename filepath) :: fs⟩
    else if basename filepath ≠ "" then
      ⟨[⟨filepath⟩], [], ["Media file not found: " ++ basename filepath], [], fs⟩
    else
      ⟨[⟨filepath⟩], [], [], [], fs⟩

/-- ImportSnapshots._import_sample of import_snapshots/__init__.py (lines
97-133).  No try/except and no isinstance check: a file that fails to
parse raises json.JSONDecodeError out of the operator, and a parsed
non-object raises AttributeError at sample_dict.get.  For an object the
media resolution mirrors importSampleV1 but without the non-empty-basename
guard and without any warning when the media file is absent.  (File
existence is modelled over the set of regular files; the degenerate case of
an empty media basename, where os.path.exists is asked about the input
directory itself, is outside the model, and the theorems that touch this
branch assume a non-empty basename.) -/
def importSampleV2 (inputDir : String) (mediaDir : Option String)
    (defaultDatasetDir datasetName : String) (doc : JsonDoc) (fs : List String) :
    Except String ImportOutcome :=
  match doc with
  | JsonDoc.malformed => Except.error "json.JSONDecodeError"
  | JsonDoc.nonObject => Except.error "AttributeError: get"
  | JsonDoc.obj filepath =>
    if pjoin inputDir (basename filepath) ∈ fs then
      if pjoin (destinationDir mediaDir defaultDatasetDir datasetName)
          (basename filepath) ∈ fs then
        Except.ok ⟨[⟨pjoin (destinationDir mediaDir defaultDatasetDir datasetName)
          (basename filepath)⟩], [], [], [], fs⟩
      else
        Except.ok ⟨[⟨pjoin (destinationDir mediaDir defaultDatasetDir datasetName)
            (basename filepath)⟩],
          [(pjoin inputDir (basename filepath),
            pjoin (destinationDir mediaDir defaultDatasetDir datasetName)
              (basename filepath))],
          [], [],
          pjoin (destinationDir mediaDir defaultDatasetDir datasetName)
            (basename filepath) :: fs⟩
    else
      Except.ok ⟨[⟨filepath⟩], [], [], [], fs⟩

/-- The import loop of ImportSnapshots.execute in snapshots/__init__.py
(lines 271-279): every JSON file is processed, outcomes accumulate in file
order, and the filesystem threads through. -/
def runImportV1 (inputDir : String) (mediaDir : Option String)
    (defaultDatasetDir datasetName : String) :
    List (String × JsonDoc) → List String → ImportOutcome
  | [], fs => ⟨[], [], [], [], fs⟩
  | (name, doc) :: rest, fs =>
    let o := importSampleV1 name inputDir mediaDir defaultDatasetDir datasetName doc fs
    let r := runImportV1 inputDir mediaDir defaultDatasetDir datasetName rest o.fs
    ⟨o.added ++ r.added, o.copies ++ r.copies, o.warnings ++ r.warnings,
     o.errors ++ r.errors, r.fs⟩

/-- The result of the import loop of import_snapshots/__init__.py: either
it ran to completion (fatal = none) or an uncaught exception aborted it,
in which case outcome holds what had been committed before the abort. -/
structure RunResultV2 where
  fatal : Option String
  outcome : ImportOutcome
deriving Repr, DecidableEq

/-- The import loop of ImportSnapshots.execute in
import_snapshots/__init__.py (lines 53-64): _import_sample is called per
file with no exception handling, so the first failing file aborts the loop
and the remaining files are never processed. -/
def runImportV2 (inputDir : String) (mediaDir : Option String)
    (defaultDatasetDir datasetName : String) :
    List (String × JsonDoc) → List String → RunResultV2
  | [], fs => ⟨none, ⟨[], [], [], [], fs⟩⟩
  | (_, doc) :: rest, fs =>
    match importSampleV2 inputDir mediaDir defaultDatasetDir datasetName doc fs with
    | Except.error e => ⟨some e, ⟨[], [], [], [], fs⟩⟩
    | Except.ok o =>
      let r := runImportV2 inputDir mediaDir defaultDatasetDir datasetName rest o.fs
      ⟨r.fatal,
       ⟨o.added ++ r.outcome.added, o.copies ++ r.outcome.copies,
        o.warnings ++ r.outcome.warnings, o.errors ++ r.outcome.errors,
        r.outcome.fs⟩⟩

/-! ### Helper lemmas -/

theorem dynamicBatchesAux_join {α : Type} (sizes : Nat → Nat) :
    ∀ (fuel step : Nat) (items : List α), items.length ≤ fuel →
      (dynamicBatchesAux sizes fuel step items).flatten = items
  | 0, _, items, h => by
    have : items = [] := List.eq_nil_of_length_eq_zero (Nat.le_zero.mp h)
    simp [dynamicBatchesAux, this]
  | fuel + 1, step, [], _ => by
    simp [dynamicBatchesAux]
  | fuel + 1, step, x :: xs, h => by
    have hk1 : 1 ≤ min (max (sizes step) 1) (x :: xs).length := by
      have h1 : 1 ≤ max (sizes step) 1 := le_max_right _ _
      have h2 : 1 ≤ (x :: xs).length := by simp
      exact le_min h1 h2
    have hdrop : ((x :: xs).drop (min (max (sizes step) 1) (x :: xs).length)).length ≤ fuel := by
      rw [List.length_drop]
      simp only [List.length_cons] at h ⊢
      omega
    have ih := dynamicBatchesAux_join sizes fuel (step + 1)
      ((x :: xs).drop (min (max (sizes step) 1) (x :: xs).length)) hdrop
    simp only [dynamicBatchesAux, List.flatten_cons, ih]
    exact List.take_append_drop _ _

theorem dynamicBatches_join {α : Type} (sizes : Nat → Nat) (items : List α) :
    (dynamicBatches sizes items).flatten = items :=
  dynamicBatchesAux_join sizes items.length 0 items (Nat.le_refl _)

theorem commitLoop_eq (tags : Option (List String)) (numTotal : Nat) :
    ∀ (bs : List (List String)) (a : Nat),
      commitLoop tags numTotal a bs =
        ((cumSizes a bs).map (fun c => loadedEvent c numTotal),
         bs.map (fun b => InsertCall.addSamplesBatch (b.map (mkSample tags))))
  | [], a => by simp [commitLoop, cumSizes]
  | b :: rest, a => by
    simp [commitLoop, cumSizes, commitLoop_eq tags numTotal rest (a + b.length)]

theorem cumSizes_le : ∀ (bs : List (List String)) (a x : Nat),
    x ∈ cumSizes a bs → a ≤ x
  | [], a, x, h => by simp [cumSizes] at h
  | b :: rest, a, x, h => by
    simp only [cumSizes, List.mem_cons] at h
    rcases h with h | h
    · omega
    · have := cumSizes_le rest (a + b.length) x h
      omega

theorem cumSizes_chain : ∀ (bs : List (List String)) (a : Nat),
    List.Chain' (fun p q => p ≤ q) (cumSizes a bs)
  | [], a => by simp [cumSizes]
  | b :: rest, a => by
    rw [cumSizes, List.chain'_cons']
    refine ⟨fun y hy => ?_, cumSizes_chain rest (a + b.length)⟩
    have hy' : y ∈ cumSizes (a + b.length) rest := by
      cases hmem : (cumSizes (a + b.length) rest).head? with
      | none => simp [hmem] at hy
      | some z =>
        simp only [hmem, Option.mem_some_iff] at hy
        subst hy
        exact List.mem_of_mem_head? (by simp [hmem])
    exact cumSizes_le rest (a + b.length) y hy'

theorem cumSizes_getLastD : ∀ (bs : List (List String)) (a : Nat),
    (cumSizes a bs).getLastD a = a + (bs.map List.length).sum
  | [], a => by simp [cumSizes]
  | b :: rest, a => by
    simp only [cumSizes, List.getLastD_cons, cumSizes_getLastD rest (a + b.length),
      List.map_cons, List.sum_cons]
    omega

theorem cumSizes_length : ∀ (bs : List (List String)) (a : Nat),
    (cumSizes a bs).length = bs.length
  | [], _ => rfl
  | b :: rest, a => by simp [cumSizes, cumSizes_length rest (a + b.length)]

theorem uploadLoop_eq (numTotal : Nat) :
    ∀ (l : List (String × String)) (n : Nat),
      uploadLoop numTotal n l = (List.range l.length).filterMap (fun k =>
        if (n + k + 1) % 10 = 0 then some (uploadEvent (n + k + 1) numTotal) else none)
  | [], n => by simp [uploadLoop]
  | x :: rest, n => by
    have hfun : ((fun k =>
        if (n + k + 1) % 10 = 0 then some (uploadEvent (n + k + 1) numTotal) else none)
          ∘ Nat.succ)
        = (fun k =>
        if (n + 1 + k + 1) % 10 = 0 then some (uploadEvent (n + 1 + k + 1) numTotal)
        else none) := by
      funext k
      have harith : n + Nat.succ k + 1 = n + 1 + k + 1 := by omega
      simp [Function.comp, harith]
    rw [uploadLoop, uploadLoop_eq numTotal rest (n + 1), List.length_cons,
      List.range_succ_eq_map, List.filterMap_cons, List.filterMap_map, hfun]
    by_cases h10 : (n + 1) % 10 = 0
    · simp only [Nat.add_zero, h10, if_pos]
    · simp only [Nat.add_zero, h10, if_neg, ite_false]

theorem uploadLoop_completed_gt (numTotal : Nat) :
    ∀ (l : List (String × String)) (n : Nat) (e : ProgressEvent),
      e ∈ uploadLoop numTotal n l → n < e.completed
  | [], n, e, h => by simp [uploadLoop] at h
  | x :: rest, n, e, h => by
    rw [uploadLoop] at h
    by_cases h10 : (n + 1) % 10 = 0
    · rw [if_pos h10, List.mem_cons] at h
      rcases h with h | h
      · subst h; simp [uploadEvent]
      · have := uploadLoop_completed_gt numTotal rest (n + 1) e h
        omega
    · rw [if_neg h10] at h
      have := uploadLoop_completed_gt numTotal rest (n + 1) e h
      omega

theorem uploadLoop_chain (numTotal : Nat) :
    ∀ (l : List (String × String)) (n : Nat),
      List.Chain' (fun a b => a.completed ≤ b.completed) (uploadLoop numTotal n l)
  | [], n => by simp [uploadLoop]
  | x :: rest, n => by
    rw [uploadLoop]
    by_cases h10 : (n + 1) % 10 = 0
    · rw [if_pos h10, List.chain'_cons']
      refine ⟨fun y hy => ?_, uploadLoop_chain numTotal rest (n + 1)⟩
      have hy' : y ∈ uploadLoop numTotal (n + 1) rest := by
        cases hmem : (uploadLoop numTotal (n + 1) rest).head? with
        | none => simp [hmem] at hy
        | some z =>
          simp only [hmem, Option.mem_some_iff] at hy
          subst hy
          exact List.mem_of_mem_head? (by simp [hmem])
      have := uploadLoop_completed_gt numTotal rest (n + 1) y hy'
      simp only [uploadEvent]
      omega
    · rw [if_neg h10]
      exact uploadLoop_chain numTotal rest (n + 1)

theorem uploadMediaTasks_fst_length (upload : Bool) (uploadDir : Option String)
    (alloc : String → String) (filepaths : List String) :
    (uploadMediaTasks upload uploadDir alloc filepaths).1.length = filepaths.length := by
  rw [uploadMediaTasks]
  cases hdir : (if upload then uploadDir else none) with
  | none => simp
  | some d => simp

theorem importMedia_delegated_events (upload : Bool) (uploadDir : Option String)
    (alloc : String → String) (tags : Option (List String)) (sizes : Nat → Nat)
    (filepaths0 : List String) :
    (importMedia true upload uploadDir alloc tags sizes filepaths0).events = [] := by
  rw [importMedia]
  by_cases h0 : filepaths0.length = 0
  · simp [h0]
  · simp only [h0, if_neg, ite_false]
    cases htasks : (uploadMediaTasks upload uploadDir alloc filepaths0).2 with
    | none => simp [htasks]
    | some tasks =>
      by_cases he : tasks.isEmpty
      · simp [htasks, he]
      · simp [htasks, he, uploadMedia]

theorem importMedia_delegated_inserts (upload : Bool) (uploadDir : Option String)
    (alloc : String → String) (tags : Option (List String)) (sizes : Nat → Nat)
    (filepaths0 : List String) (h : filepaths0 ≠ []) :
    (importMedia true upload uploadDir alloc tags sizes filepaths0).inserts =
      [InsertCall.addSamplesBulk
        ((uploadMediaTasks upload uploadDir alloc filepaths0).1.map (mkSample tags))
        (uploadMediaTasks upload uploadDir alloc filepaths0).1.length] := by
  rw [importMedia]
  have h0 : filepaths0.length ≠ 0 := by
    simpa [List.length_eq_zero] using h
  simp only [h0, if_neg, ite_false, if_true]

theorem importMedia_interactive (upload : Bool) (uploadDir : Option String)
    (alloc : String → String) (tags : Option (List String)) (sizes : Nat → Nat)
    (filepaths0 : List String) (h : filepaths0 ≠ []) :
    ∃ upEvents,
      importMedia false upload uploadDir alloc tags sizes filepaths0 =
        ⟨upEvents ++
          ((cumSizes 0 (dynamicBatches sizes (uploadMediaTasks upload uploadDir alloc filepaths0).1)).map
            (fun c => loadedEvent c filepaths0.length)),
         (dynamicBatches sizes (uploadMediaTasks upload uploadDir alloc filepaths0).1).map
           (fun b => InsertCall.addSamplesBatch (b.map (mkSample tags))),
         (match (uploadMediaTasks upload uploadDir alloc filepaths0).2 with
          | none => ([], [])
          | some tasks =>
            if tasks.isEmpty then (([] : List ProgressEvent), ([] : List (String × String)))
            else uploadMedia false tasks tasks).2⟩ := by
  rw [importMedia]
  have h0 : filepaths0.length ≠ 0 := by
    simpa [List.length_eq_zero] using h
  simp only [h0, if_neg, ite_false, if_false, commitLoop_eq]
  exact ⟨_, rfl⟩

theorem importSampleV2_obj_ok (inputDir : String) (mediaDir : Option String)
    (defaultDatasetDir datasetName fp : String) (fs : List String) :
    ∃ o, importSampleV2 inputDir mediaDir defaultDatasetDir datasetName
      (JsonDoc.obj fp) fs = Except.ok o ∧ o.added.length = 1 := by
  rw [importSampleV2]
  split_ifs <;> exact ⟨_, rfl, rfl⟩

theorem runImportV2_obj_added_length (inputDir : String) (mediaDir : Option String)
    (defaultDatasetDir datasetName : String) :
    ∀ (docs : List (String × JsonDoc)) (fs : List String),
      (∀ x ∈ docs, ∃ fp, x.2 = JsonDoc.obj fp) →
      (runImportV2 inputDir mediaDir defaultDatasetDir datasetName docs fs).outcome.added.length
        = docs.length
  | [], fs, _ => rfl
  | (name, doc) :: rest, fs, hdocs => by
    obtain ⟨fp, hfp⟩ := hdocs (name, doc) (List.mem_cons_self _ _)
    simp only at hfp
    subst hfp
    obtain ⟨o, ho, hlen⟩ :=
      importSampleV2_obj_ok inputDir mediaDir defaultDatasetDir datasetName fp fs
    have ih := runImportV2_obj_added_length inputDir mediaDir defaultDatasetDir datasetName
      rest o.fs (fun x hx => hdocs x (List.mem_cons_of_mem _ hx))
    simp [runImportV2, ho, ih, hlen, Nat.add_comm]

/-! ### Claim theorems -/

/-- Claim C4 (confirmed; batcher modelled from the spec): for every
non-empty input sequence and every adapted batch-size sequence the
DynamicBatcher may choose, the batches it produces, concatenated in order,
equal the original input sequence exactly: no item lost, none duplicated,
none reordered. -/
theorem c4_batches_concatenation {α : Type} (sizes : Nat → Nat) (items : List α)
    (_h : items ≠ []) :
    (dynamicBatches sizes items).flatten = items :=
  dynamicBatches_join sizes items

/-- Witness for c4_batches_concatenation at a concrete input. -/
theorem c4_witness :
    ([1, 2, 3, 4, 5] ≠ ([] : List Nat)) ∧
    (dynamicBatches (fun _ => 2) [1, 2, 3, 4, 5]).flatten = [1, 2, 3, 4, 5] :=
  ⟨by decide, c4_batches_concatenation (fun _ => 2) [1, 2, 3, 4, 5] (by decide)⟩

/-- Claim C9 (confirmed): for every non-empty task sequence, the transfer
layer in DELEGATED mode performs all copies synchronously and yields no
progress event, and in INTERACTIVE mode — whatever order the worker pool
completes the tasks in — performs every copy and yields one progress event
exactly after every 10th task completion, with completed equal to the
number of tasks finished so far and total equal to the number of tasks. -/
theorem c9_transfer_layer (tasks order : List (String × String))
    (_h : tasks ≠ []) (hlen : order.length = tasks.length) :
    uploadMedia true order tasks = ([], tasks) ∧
    (uploadMedia false order tasks).1 =
      (List.range tasks.length).filterMap (fun k =>
        if (k + 1) % 10 = 0 then some (uploadEvent (k + 1) tasks.length) else none) ∧
    (uploadMedia false order tasks).2 = order := by
  refine ⟨by simp [uploadMedia], ?_, by simp [uploadMedia]⟩
  have h1 : (uploadMedia false order tasks).1 = uploadLoop tasks.length 0 order := by
    simp [uploadMedia]
  rw [h1, uploadLoop_eq tasks.length order 0, hlen]
  simp only [Nat.zero_add]

/-- Witness for c9_transfer_layer at a concrete input. -/
theorem c9_witness :
    ([("s", "d")] ≠ ([] : List (String × String))) ∧
    ([("s", "d")] : List (String × String)).length = [("s", "d")].length ∧
    (uploadMedia true [("s", "d")] [("s", "d")] = ([], [("s", "d")]) ∧
     (uploadMedia false [("s", "d")] [("s", "d")]).1 =
       (List.range ([("s", "d")] : List (String × String)).length).filterMap (fun k =>
         if (k + 1) % 10 = 0 then
           some (uploadEvent (k + 1) ([("s", "d")] : List (String × String)).length)
         else none) ∧
     (uploadMedia false [("s", "d")] [("s", "d")]).2 = [("s", "d")]) :=
  ⟨by decide, rfl, c9_transfer_layer [("s", "d")] [("s", "d")] (by decide) rfl⟩

/-- Claim C3 (confirmed; batcher modelled from the spec): for every
interactive-mode run with at least one discovered item, the commit phase
issues exactly one incremental insert per batch (in batch order, each
insert carrying exactly that batch's samples), and the events yielded
after the upload phase are exactly one per batch commit, the i-th carrying
completed = cumulative number of items inserted through batch i, total =
the discovered count, and message "Loaded X of Y". -/
theorem c3_interactive_commit (upload : Bool) (uploadDir : Option String)
    (alloc : String → String) (tags : Option (List String)) (sizes : Nat → Nat)
    (filepaths0 : List String) (h : filepaths0 ≠ []) :
    (importMedia false upload uploadDir alloc tags sizes filepaths0).inserts =
      (dynamicBatches sizes (uploadMediaTasks upload uploadDir alloc filepaths0).1).map
        (fun b => InsertCall.addSamplesBatch (b.map (mkSample tags))) ∧
    ∃ upEvents,
      (importMedia false upload uploadDir alloc tags sizes filepaths0).events =
        upEvents ++
          (cumSizes 0
            (dynamicBatches sizes (uploadMediaTasks upload uploadDir alloc filepaths0).1)).map
            (fun c => loadedEvent c filepaths0.length) := by
  obtain ⟨upEvents, heq⟩ :=
    importMedia_interactive upload uploadDir alloc tags sizes filepaths0 h
  rw [heq]
  exact ⟨rfl, upEvents, rfl⟩

/-- Witness for c3_interactive_commit at a concrete input. -/
theorem c3_witness :
    (["/a", "/b", "/c"] ≠ ([] : List String)) ∧
    ((importMedia false false none (fun s => s) none (fun _ => 2) ["/a", "/b", "/c"]).inserts =
      (dynamicBatches (fun _ => 2) (uploadMediaTasks false none (fun s => s) ["/a", "/b", "/c"]).1).map
        (fun b => InsertCall.addSamplesBatch (b.map (mkSample none))) ∧
     ∃ upEvents,
       (importMedia false false none (fun s => s) none (fun _ => 2) ["/a", "/b", "/c"]).events =
         upEvents ++
           (cumSizes 0
             (dynamicBatches (fun _ => 2) (uploadMediaTasks false none (fun s => s) ["/a", "/b", "/c"]).1)).map
             (fun c => loadedEvent c (["/a", "/b", "/c"] : List String).length)) :=
  ⟨by decide, c3_interactive_commit false none (fun s => s) none (fun _ => 2)
    ["/a", "/b", "/c"] (by decide)⟩

/-- Claim C1 (corrected): in the import_images pipeline, a DELEGATED run
with at least one discovered item performs exactly one bulk-insert call
covering all discovered items, but yields no completion event (the
delegated branch returns without yielding); the import_snapshots delegated
pipeline instead performs one insert call per item. -/
theorem c1_delegated_commit (upload : Bool) (uploadDir : Option String)
    (alloc : String → String) (tags : Option (List String)) (sizes : Nat → Nat)
    (filepaths0 : List String) (inputDir : String) (mediaDir : Option String)
    (defaultDatasetDir datasetName : String) (docs : List (String × JsonDoc))
    (fs : List String) (h : filepaths0 ≠ [])
    (hdocs : ∀ x ∈ docs, ∃ fp, x.2 = JsonDoc.obj fp) :
    (importMedia true upload uploadDir alloc tags sizes filepaths0).inserts =
      [InsertCall.addSamplesBulk
        ((uploadMediaTasks upload uploadDir alloc filepaths0).1.map (mkSample tags))
        (uploadMediaTasks upload uploadDir alloc filepaths0).1.length] ∧
    (importMedia true upload uploadDir alloc tags sizes filepaths0).events = [] ∧
    (runImportV2 inputDir mediaDir defaultDatasetDir datasetName docs fs).outcome.added.length
      = docs.length :=
  ⟨importMedia_delegated_inserts upload uploadDir alloc tags sizes filepaths0 h,
   importMedia_delegated_events upload uploadDir alloc tags sizes filepaths0,
   runImportV2_obj_added_length inputDir mediaDir defaultDatasetDir datasetName docs fs hdocs⟩

/-- Counterexample to claim C1 as stated: a delegated import_images run
over two discovered items issues the single covering bulk insert but
yields zero events, not the claimed single completion event. -/
theorem c1_counterexample :
    (importMedia true false none (fun s => s) none (fun _ => 1)
      ["/d/a.jpg", "/d/b.jpg"]).events = [] ∧
    ¬ (importMedia true false none (fun s => s) none (fun _ => 1)
      ["/d/a.jpg", "/d/b.jpg"]).events.length = 1 ∧
    (importMedia true false none (fun s => s) none (fun _ => 1)
      ["/d/a.jpg", "/d/b.jpg"]).inserts =
      [InsertCall.addSamplesBulk
        [{ filepath := "/d/a.jpg", tags := none }, { filepath := "/d/b.jpg", tags := none }] 2] := by
  refine ⟨by decide, by decide, by decide⟩

/-- Witness for c1_delegated_commit at a concrete input. -/
theorem c1_witness :
    (["/d/a.jpg"] ≠ ([] : List String)) ∧
    (∀ x ∈ [("a.json", JsonDoc.obj "/m/x.jpg")], ∃ fp, x.2 = JsonDoc.obj fp) ∧
    ((importMedia true false none (fun s => s) none (fun _ => 1) ["/d/a.jpg"]).inserts =
      [InsertCall.addSamplesBulk
        ((uploadMediaTasks false none (fun s => s) ["/d/a.jpg"]).1.map (mkSample none))
        (uploadMediaTasks false none (fun s => s) ["/d/a.jpg"]).1.length] ∧
     (importMedia true false none (fun s => s) none (fun _ => 1) ["/d/a.jpg"]).events = [] ∧
     (runImportV2 "/in" none "/fo" "ds" [("a.json", JsonDoc.obj "/m/x.jpg")] []).outcome.added.length
       = [("a.json", JsonDoc.obj "/m/x.jpg")].length) :=
  ⟨by decide,
   by
     intro x hx
     rw [List.mem_singleton] at hx
     subst hx
     exact ⟨"/m/x.jpg", rfl⟩,
   c1_delegated_commit false none (fun s => s) none (fun _ => 1) ["/d/a.jpg"]
     "/in" none "/fo" "ds" [("a.json", JsonDoc.obj "/m/x.jpg")] [] (by decide)
     (by
       intro x hx
       rw [List.mem_singleton] at hx
       subst hx
       exact ⟨"/m/x.jpg", rfl⟩)⟩

/-- Claim C2 (corrected): within one run, the commit-phase events alone are
monotonically non-decreasing in completed and their completed deltas sum
(telescope) to the discovered count N, and the upload-phase events alone
are monotonically non-decreasing; but the concatenated event sequence of a
run is only per-phase monotone (completed restarts at the upload-to-commit
boundary), and a delegated run yields no events at all. -/
theorem c2_phase_monotonicity (upload : Bool) (uploadDir : Option String)
    (alloc : String → String) (tags : Option (List String)) (sizes : Nat → Nat)
    (filepaths0 : List String) (_h : filepaths0 ≠ []) :
    List.Chain' (fun a b => a.completed ≤ b.completed)
      ((commitLoop tags filepaths0.length 0
        (dynamicBatches sizes (uploadMediaTasks upload uploadDir alloc filepaths0).1)).1) ∧
    (((commitLoop tags filepaths0.length 0
        (dynamicBatches sizes (uploadMediaTasks upload uploadDir alloc filepaths0).1)).1).map
      (fun e => e.completed)).getLastD 0 = filepaths0.length ∧
    (∀ (numTotal n : Nat) (l : List (String × String)),
      List.Chain' (fun a b => a.completed ≤ b.completed) (uploadLoop numTotal n l)) ∧
    (importMedia true upload uploadDir alloc tags sizes filepaths0).events = [] := by
  have hsum : ((dynamicBatches sizes
      (uploadMediaTasks upload uploadDir alloc filepaths0).1).map List.length).sum
      = filepaths0.length := by
    have hj := dynamicBatches_join sizes (uploadMediaTasks upload uploadDir alloc filepaths0).1
    have := congrArg List.length hj
    rw [List.length_flatten] at this
    rw [this, uploadMediaTasks_fst_length]
  rw [commitLoop_eq]
  refine ⟨?_, ?_, fun numTotal n l => uploadLoop_chain numTotal l n,
    importMedia_delegated_events upload uploadDir alloc tags sizes filepaths0⟩
  · rw [List.chain'_map]
    simpa [loadedEvent] using
      cumSizes_chain (dynamicBatches sizes (uploadMediaTasks upload uploadDir alloc filepaths0).1) 0
  · rw [List.map_map]
    have hcomp : ((fun e => e.completed) ∘ fun c => loadedEvent c filepaths0.length)
        = id := by
      funext c
      simp [loadedEvent]
    rw [hcomp, List.map_id, cumSizes_getLastD, Nat.zero_add, hsum]

/-- Counterexample to claim C2 as stated: an interactive run with upload
over ten items yields upload events then commit events; the completed
values read 10 then restart at 1, so the full event sequence of the run is
not monotonically non-decreasing in completed. -/
theorem c2_counterexample :
    ((importMedia false true (some "/up") (fun s => s) none (fun _ => 1)
      ["/a1", "/a2", "/a3", "/a4", "/a5", "/a6", "/a7", "/a8", "/a9", "/a10"]).events.map
        (fun e => e.completed)) = [10, 1, 2, 3, 4, 5, 6, 7, 8, 9, 10] ∧
    ¬ List.Chain' (fun a b => a ≤ b)
      ((importMedia false true (some "/up") (fun s => s) none (fun _ => 1)
        ["/a1", "/a2", "/a3", "/a4", "/a5", "/a6", "/a7", "/a8", "/a9", "/a10"]).events.map
          (fun e => e.completed)) := by
  have h1 : ((importMedia false true (some "/up") (fun s => s) none (fun _ => 1)
      ["/a1", "/a2", "/a3", "/a4", "/a5", "/a6", "/a7", "/a8", "/a9", "/a10"]).events.map
        (fun e => e.completed)) = [10, 1, 2, 3, 4, 5, 6, 7, 8, 9, 10] := by decide
  refine ⟨h1, ?_⟩
  intro hch
  rw [h1, List.chain'_cons] at hch
  exact absurd hch.1 (by omega)

/-- Witness for c2_phase_monotonicity at a concrete input. -/
theorem c2_witness :
    (["/a"] ≠ ([] : List String)) ∧
    (List.Chain' (fun a b => a.completed ≤ b.completed)
      ((commitLoop none (["/a"] : List String).length 0
        (dynamicBatches (fun _ => 1) (uploadMediaTasks false none (fun s => s) ["/a"]).1)).1) ∧
     (((commitLoop none (["/a"] : List String).length 0
        (dynamicBatches (fun _ => 1) (uploadMediaTasks false none (fun s => s) ["/a"]).1)).1).map
       (fun e => e.completed)).getLastD 0 = (["/a"] : List String).length ∧
     (∀ (numTotal n : Nat) (l : List (String × String)),
       List.Chain' (fun a b => a.completed ≤ b.completed) (uploadLoop numTotal n l)) ∧
     (importMedia true false none (fun s => s) none (fun _ => 1) ["/a"]).events = []) :=
  ⟨by decide, c2_phase_monotonicity false none (fun s => s) none (fun _ => 1) ["/a"] (by decide)⟩

/-- Claim C5 (corrected): a JSON file that does not decode to an object is
skipped and logged only by the snapshots-plugin importer, whose run
continues and processes the remaining items exactly as if the bad file
were absent; in the import_snapshots-plugin importer the decode failure
propagates uncaught, the run aborts, and no remaining item is committed. -/
theorem c5_decode_failure_handling (name : String) (doc : JsonDoc)
    (rest : List (String × JsonDoc)) (inputDir : String) (mediaDir : Option String)
    (defaultDatasetDir datasetName : String) (fs : List String)
    (h : doc = JsonDoc.malformed ∨ doc = JsonDoc.nonObject) :
    (∃ e, runImportV1 inputDir mediaDir defaultDatasetDir datasetName
        ((name, doc) :: rest) fs =
      { runImportV1 inputDir mediaDir defaultDatasetDir datasetName rest fs with
        errors :=
          e :: (runImportV1 inputDir mediaDir defaultDatasetDir datasetName rest fs).errors }) ∧
    (runImportV2 inputDir mediaDir defaultDatasetDir datasetName
      ((name, doc) :: rest) fs).fatal.isSome = true ∧
    (runImportV2 inputDir mediaDir defaultDatasetDir datasetName
      ((name, doc) :: rest) fs).outcome.added = [] := by
  rcases h with h | h <;> subst h
  · exact ⟨⟨"Error importing sample from " ++ name, by simp [runImportV1, importSampleV1]⟩,
      by simp [runImportV2, importSampleV2], by simp [runImportV2, importSampleV2]⟩
  · exact ⟨⟨"Invalid JSON format in file: " ++ name, by simp [runImportV1, importSampleV1]⟩,
      by simp [runImportV2, importSampleV2], by simp [runImportV2, importSampleV2]⟩

/-- Counterexample to claim C5 as stated: an import_snapshots-plugin run
over a malformed first file and a well-formed second file aborts fatally
with nothing committed — the remaining item is not processed — while the
snapshots-plugin importer on the same input commits the remaining item. -/
theorem c5_counterexample :
    runImportV2 "/in" none "/fo" "ds"
      [("a.json", JsonDoc.malformed), ("b.json", JsonDoc.obj "/x/y.jpg")] [] =
      { fatal := some "json.JSONDecodeError",
        outcome := { added := [], copies := [], warnings := [], errors := [], fs := [] } } ∧
    (runImportV1 "/in" none "/fo" "ds"
      [("a.json", JsonDoc.malformed), ("b.json", JsonDoc.obj "/x/y.jpg")] []).added =
      [{ filepath := "/x/y.jpg" }] := by
  refine ⟨by decide, by decide⟩

/-- Witness for c5_decode_failure_handling at a concrete input. -/
theorem c5_witness :
    (JsonDoc.malformed = JsonDoc.malformed ∨ JsonDoc.malformed = JsonDoc.nonObject) ∧
    ((∃ e, runImportV1 "/in" none "/fo" "ds"
        (("a.json", JsonDoc.malformed) :: [("b.json", JsonDoc.obj "/x/y.jpg")]) [] =
      { runImportV1 "/in" none "/fo" "ds" [("b.json", JsonDoc.obj "/x/y.jpg")] [] with
        errors :=
          e :: (runImportV1 "/in" none "/fo" "ds" [("b.json", JsonDoc.obj "/x/y.jpg")] []).errors }) ∧
     (runImportV2 "/in" none "/fo" "ds"
       (("a.json", JsonDoc.malformed) :: [("b.json", JsonDoc.obj "/x/y.jpg")]) []).fatal.isSome
        = true ∧
     (runImportV2 "/in" none "/fo" "ds"
       (("a.json", JsonDoc.malformed) :: [("b.json", JsonDoc.obj "/x/y.jpg")]) []).outcome.added
        = []) :=
  ⟨Or.inl rfl,
   c5_decode_failure_handling "a.json" JsonDoc.malformed [("b.json", JsonDoc.obj "/x/y.jpg")]
     "/in" none "/fo" "ds" [] (Or.inl rfl)⟩

/-- Claim C6 (corrected): for every exported record with a non-empty media
reference, the export writes exactly one JSON document into the output
directory — named after the text of the media basename before its FIRST
dot, plus ".json" (which equals the basename without its extension only
when the basename has a single dot) — followed by a copy of the media file
under its basename in the same directory. -/
theorem c6_export_layout (outputDir : String) (s : ExportSample)
    (h : s.filepath ≠ "") :
    exportSample outputDir s =
      [WriteOp.writeFile
        (pjoin outputDir (beforeFirstDot (basename s.filepath) ++ ".json")) s.json,
       WriteOp.copyFile s.filepath (pjoin outputDir (basename s.filepath))] := by
  simp [exportSample, h]

/-- Counterexample to claim C6 as stated: for a record whose media basename
is "a.b.jpg" the basename without extension is "a.b", so the claimed JSON
name is "a.b.json"; the export instead writes "a.json" (text before the
first dot). -/
theorem c6_counterexample :
    exportSample "/out" { filepath := "/d/a.b.jpg", json := "J" } =
      [WriteOp.writeFile "/out/a.json" "J",
       WriteOp.copyFile "/d/a.b.jpg" "/out/a.b.jpg"] ∧
    ("/out/a.json" : String) ≠ "/out/a.b.json" := by
  refine ⟨by decide, by decide⟩

/-- Witness for c6_export_layout at a concrete input. -/
theorem c6_witness :
    (("/d/x.png" : String) ≠ "") ∧
    exportSample "/out" { filepath := "/d/x.png", json := "J" } =
      [WriteOp.writeFile
        (pjoin "/out" (beforeFirstDot (basename ("/d/x.png" : String)) ++ ".json")) "J",
       WriteOp.copyFile "/d/x.png" (pjoin "/out" (basename ("/d/x.png" : String)))] :=
  ⟨by decide, c6_export_layout "/out" { filepath := "/d/x.png", json := "J" } (by decide)⟩

/-- Claim C7 (corrected): a record whose referenced media file is absent
from the input directory is still committed with its original unresolved
media reference by both importers, and the miss is never fatal; but only
the snapshots-plugin importer signals a warning — the
import_snapshots-plugin importer commits silently. -/
theorem c7_missing_media (name inputDir : String) (mediaDir : Option String)
    (defaultDatasetDir datasetName fp : String) (fs : List String)
    (hb : basename fp ≠ "") (hm : pjoin inputDir (basename fp) ∉ fs) :
    importSampleV1 name inputDir mediaDir defaultDatasetDir datasetName
      (JsonDoc.obj fp) fs =
      { added := [{ filepath := fp }], copies := [],
        warnings := ["Media file not found: " ++ basename fp], errors := [], fs := fs } ∧
    importSampleV2 inputDir mediaDir defaultDatasetDir datasetName
      (JsonDoc.obj fp) fs =
      Except.ok
        ({ added := [{ filepath := fp }], copies := [],
           warnings := [], errors := [], fs := fs }) := by
  constructor
  · rw [importSampleV1]
    rw [if_neg (by simp [hm]), if_pos hb]
  · rw [importSampleV2]
    rw [if_neg hm]

/-- Counterexample to claim C7 as stated: the import_snapshots-plugin
importer, on a record whose media file "/orig/x.jpg" is absent, commits
the record with its original reference but signals no warning (the
warnings list of the outcome is empty), contradicting the claim that a
warning is signaled on every such import. -/
theorem c7_counterexample :
    importSampleV2 "/in" none "/fo" "ds" (JsonDoc.obj "/orig/x.jpg") [] =
      Except.ok
        ({ added := [{ filepath := "/orig/x.jpg" }], copies := [],
           warnings := [], errors := [], fs := [] }) := by
  rfl

/-- Witness for c7_missing_media at a concrete input. -/
theorem c7_witness :
    (basename ("/orig/x.jpg" : String) ≠ "") ∧
    (pjoin "/in" (basename ("/orig/x.jpg" : String)) ∉ ([] : List String)) ∧
    (importSampleV1 "a.json" "/in" none "/fo" "ds" (JsonDoc.obj "/orig/x.jpg") [] =
      { added := [{ filepath := "/orig/x.jpg" }], copies := [],
        warnings := ["Media file not found: " ++ basename ("/orig/x.jpg" : String)],
        errors := [], fs := [] } ∧
     importSampleV2 "/in" none "/fo" "ds" (JsonDoc.obj "/orig/x.jpg") [] =
      Except.ok
        ({ added := [{ filepath := "/orig/x.jpg" }], copies := [],
           warnings := [], errors := [], fs := [] })) :=
  ⟨by decide, by decide,
   c7_missing_media "a.json" "/in" none "/fo" "ds" "/orig/x.jpg" [] (by decide) (by decide)⟩

/-- Claim C8 (confirmed): running the media-resolution step twice with the
same record, source directory and media directory never copies on the
second call (the copy is guarded by a destination-existence check), never
errors, and adds the same (identically rewritten) record as the first
call — in the snapshots-plugin importer for every document, and in the
import_snapshots-plugin importer for every record with a non-empty media
basename. -/
theorem c8_resolution_idempotent (name inputDir : String) (mediaDir : Option String)
    (defaultDatasetDir datasetName : String) (doc : JsonDoc) (fp : String)
    (fs : List String) (_hb : basename fp ≠ "") :
    ((importSampleV1 name inputDir mediaDir defaultDatasetDir datasetName doc
        (importSampleV1 name inputDir mediaDir defaultDatasetDir datasetName doc fs).fs).copies
      = [] ∧
     (importSampleV1 name inputDir mediaDir defaultDatasetDir datasetName doc
        (importSampleV1 name inputDir mediaDir defaultDatasetDir datasetName doc fs).fs).added
      = (importSampleV1 name inputDir mediaDir defaultDatasetDir datasetName doc fs).added) ∧
    (∃ o1 o2,
      importSampleV2 inputDir mediaDir defaultDatasetDir datasetName
        (JsonDoc.obj fp) fs = Except.ok o1 ∧
      importSampleV2 inputDir mediaDir defaultDatasetDir datasetName
        (JsonDoc.obj fp) o1.fs = Except.ok o2 ∧
      o2.copies = [] ∧ o2.added = o1.added) := by
  constructor
  · cases doc with
    | malformed => simp [importSampleV1]
    | nonObject => simp [importSampleV1]
    | obj fp' =>
      by_cases h1 : basename fp' ≠ "" ∧ pjoin inputDir (basename fp') ∈ fs
      · by_cases h2 : pjoin (destinationDir mediaDir defaultDatasetDir datasetName)
            (basename fp') ∈ fs
        · have hin : importSampleV1 name inputDir mediaDir defaultDatasetDir datasetName
              (JsonDoc.obj fp') fs =
              ⟨[⟨pjoin (destinationDir mediaDir defaultDatasetDir datasetName)
                  (basename fp')⟩], [], [], [], fs⟩ := by
            rw [importSampleV1, if_pos h1, if_pos h2]
          simp [hin]
        · have h1' : basename fp' ≠ "" ∧ pjoin inputDir (basename fp') ∈
              pjoin (destinationDir mediaDir defaultDatasetDir datasetName)
                (basename fp') :: fs :=
            ⟨h1.1, List.mem_cons_of_mem _ h1.2⟩
          have h2' : pjoin (destinationDir mediaDir defaultDatasetDir datasetName)
              (basename fp') ∈
              pjoin (destinationDir mediaDir defaultDatasetDir datasetName)
                (basename fp') :: fs := List.mem_cons_self _ _
          have hin : importSampleV1 name inputDir mediaDir defaultDatasetDir datasetName
              (JsonDoc.obj fp') fs =
              ⟨[⟨pjoin (destinationDir mediaDir defaultDatasetDir datasetName)
                  (basename fp')⟩],
               [(pjoin inputDir (basename fp'),
                 pjoin (destinationDir mediaDir defaultDatasetDir datasetName)
                   (basename fp'))],
               [], [],
               pjoin (destinationDir mediaDir defaultDatasetDir datasetName)
                 (basename fp') :: fs⟩ := by
            rw [importSampleV1, if_pos h1, if_neg h2]
          have hout : importSampleV1 name inputDir mediaDir defaultDatasetDir datasetName
              (JsonDoc.obj fp')
              (pjoin (destinationDir mediaDir defaultDatasetDir datasetName)
                (basename fp') :: fs) =
              ⟨[⟨pjoin (destinationDir mediaDir defaultDatasetDir datasetName)
                  (basename fp')⟩], [], [], [],
               pjoin (destinationDir mediaDir defaultDatasetDir datasetName)
                 (basename fp') :: fs⟩ := by
            rw [importSampleV1, if_pos h1', if_pos h2']
          simp [hin, hout]
      · by_cases h3 : basename fp' ≠ ""
        · have hin : importSampleV1 name inputDir mediaDir defaultDatasetDir datasetName
              (JsonDoc.obj fp') fs =
              ⟨[⟨fp'⟩], [], ["Media file not found: " ++ basename fp'], [], fs⟩ := by
            rw [importSampleV1, if_neg h1, if_pos h3]
          simp [hin]
        · have hin : importSampleV1 name inputDir mediaDir defaultDatasetDir datasetName
              (JsonDoc.obj fp') fs = ⟨[⟨fp'⟩], [], [], [], fs⟩ := by
            rw [importSampleV1, if_neg h1, if_neg h3]
          simp [hin]
  · by_cases h1 : pjoin inputDir (basename fp) ∈ fs
    · by_cases h2 : pjoin (destinationDir mediaDir defaultDatasetDir datasetName)
          (basename fp) ∈ fs
      · have e1 : importSampleV2 inputDir mediaDir defaultDatasetDir datasetName
            (JsonDoc.obj fp) fs =
            Except.ok ⟨[⟨pjoin (destinationDir mediaDir defaultDatasetDir datasetName)
              (basename fp)⟩], [], [], [], fs⟩ := by
          rw [importSampleV2, if_pos h1, if_pos h2]
        exact ⟨_, _, e1, e1, rfl, rfl⟩
      · have h1' : pjoin inputDir (basename fp) ∈
            pjoin (destinationDir mediaDir defaultDatasetDir datasetName)
              (basename fp) :: fs := List.mem_cons_of_mem _ h1
        have h2' : pjoin (destinationDir mediaDir defaultDatasetDir datasetName)
            (basename fp) ∈
            pjoin (destinationDir mediaDir defaultDatasetDir datasetName)
              (basename fp) :: fs := List.mem_cons_self _ _
        have e1 : importSampleV2 inputDir mediaDir defaultDatasetDir datasetName
            (JsonDoc.obj fp) fs =
            Except.ok ⟨[⟨pjoin (destinationDir mediaDir defaultDatasetDir datasetName)
                (basename fp)⟩],
              [(pjoin inputDir (basename fp),
                pjoin (destinationDir mediaDir defaultDatasetDir datasetName)
                  (basename fp))],
              [], [],
              pjoin (destinationDir mediaDir defaultDatasetDir datasetName)
                (basename fp) :: fs⟩ := by
          rw [importSampleV2, if_pos h1, if_neg h2]
        have e2 : importSampleV2 inputDir mediaDir defaultDatasetDir datasetName
            (JsonDoc.obj fp)
            (pjoin (destinationDir mediaDir defaultDatasetDir datasetName)
              (basename fp) :: fs) =
            Except.ok ⟨[⟨pjoin (destinationDir mediaDir defaultDatasetDir datasetName)
                (basename fp)⟩], [], [], [],
              pjoin (destinationDir mediaDir defaultDatasetDir datasetName)
                (basename fp) :: fs⟩ := by
          rw [importSampleV2, if_pos h1', if_pos h2']
        exact ⟨_, _, e1, e2, rfl, rfl⟩
    · have e1 : importSampleV2 inputDir mediaDir defaultDatasetDir datasetName
          (JsonDoc.obj fp) fs = Except.ok ⟨[⟨fp⟩], [], [], [], fs⟩ := by
        rw [importSampleV2, if_neg h1]
      exact ⟨_, _, e1, e1, rfl, rfl⟩

/-- Witness for c8_resolution_idempotent at a concrete input (the media
file is present, so the first call copies and the second does not). -/
theorem c8_witness :
    (basename ("/orig/x.jpg" : String) ≠ "") ∧
    (((importSampleV1 "a.json" "/in" (some "/md") "/fo" "ds" (JsonDoc.obj "/orig/x.jpg")
        (importSampleV1 "a.json" "/in" (some "/md") "/fo" "ds" (JsonDoc.obj "/orig/x.jpg")
          ["/in/x.jpg"]).fs).copies = [] ∧
      (importSampleV1 "a.json" "/in" (some "/md") "/fo" "ds" (JsonDoc.obj "/orig/x.jpg")
        (importSampleV1 "a.json" "/in" (some "/md") "/fo" "ds" (JsonDoc.obj "/orig/x.jpg")
          ["/in/x.jpg"]).fs).added =
        (importSampleV1 "a.json" "/in" (some "/md") "/fo" "ds" (JsonDoc.obj "/orig/x.jpg")
          ["/in/x.jpg"]).added) ∧
     (∃ o1 o2,
       importSampleV2 "/in" (some "/md") "/fo" "ds" (JsonDoc.obj "/orig/x.jpg")
         ["/in/x.jpg"] = Except.ok o1 ∧
       importSampleV2 "/in" (some "/md") "/fo" "ds" (JsonDoc.obj "/orig/x.jpg")
         o1.fs = Except.ok o2 ∧
       o2.copies = [] ∧ o2.added = o1.added)) :=
  ⟨by decide,
   c8_resolution_idempotent "a.json" "/in" (some "/md") "/fo" "ds"
     (JsonDoc.obj "/orig/x.jpg") "/orig/x.jpg" ["/in/x.jpg"] (by decide)⟩

/-- Claim C10 (confirmed): in one export run, two distinct records whose
media basenames share the text before the first dot ("a.b.jpg" and
"a.c.png") have their JSON documents written to the identical output path
"/out/a.json"; the later write silently overwrites the earlier one (the
final directory content at that path is the second record's document), and
the run writes two JSON documents but the directory ends up with a single
JSON file — with no unique-name allocation, warning, or error on the
export path (the write trace consists of the four plain write/copy
operations only). -/
theorem c10_export_collision :
    exportRun "/out"
      [{ filepath := "/d1/a.b.jpg", json := "J1" },
       { filepath := "/d2/a.c.png", json := "J2" }] =
      [WriteOp.writeFile "/out/a.json" "J1",
       WriteOp.copyFile "/d1/a.b.jpg" "/out/a.b.jpg",
       WriteOp.writeFile "/out/a.json" "J2",
       WriteOp.copyFile "/d2/a.c.png" "/out/a.c.png"] ∧
    lookupFS (applyWrites (exportRun "/out"
      [{ filepath := "/d1/a.b.jpg", json := "J1" },
       { filepath := "/d2/a.c.png", json := "J2" }]) []) "/out/a.json" = some "J2" ∧
    (jsonWritePaths (exportRun "/out"
      [{ filepath := "/d1/a.b.jpg", json := "J1" },
       { filepath := "/d2/a.c.png", json := "J2" }])).length = 2 ∧
    (jsonWritePaths (exportRun "/out"
      [{ filepath := "/d1/a.b.jpg", json := "J1" },
       { filepath := "/d2/a.c.png", json := "J2" }])).dedup = ["/out/a.json"] := by
  refine ⟨by decide, by decide, by decide, by decide⟩

end Z430
